import Mathlib

/-!
Shallow embedding of the brave-byom-compat translation core
(`src/translator.ts` and the validation/dispatch code of `src/server.ts`)
together with theorems settling the specification claims.

Strings are Lean `String`s; JavaScript `trim` is modelled by `jsTrim`,
JavaScript truthiness of a string by comparison with `""`, and optional
JSON fields by `Option`.  The wall-clock `created` field (computed with
`Date.now()` in the source) is passed in as an explicit parameter.
-/

namespace BraveByom

/-- Whitespace characters removed by JavaScript `String.prototype.trim`
(the ASCII subset, which is all the source ever handles). -/
def isWs (c : Char) : Bool :=
  c == ' ' || c == '\t' || c == '\n' || c == '\r' || c == '\x0b' || c == '\x0c'

/-- Trim on the underlying character list: drop whitespace from both ends. -/
def trimChars (l : List Char) : List Char :=
  ((l.dropWhile isWs).reverse.dropWhile isWs).reverse

/-- JavaScript `s.trim()`. -/
def jsTrim (s : String) : String :=
  ⟨trimChars s.data⟩

/-- Roles of protocol-A (OpenAI-style) messages (`types.ts`, `OpenAIMessage`). -/
inductive Role where
  | system
  | user
  | assistant
deriving DecidableEq, Repr

/-- One protocol-A chat message (`types.ts`, `OpenAIMessage`). -/
structure OpenAIMessage where
  role : Role
  content : String
deriving DecidableEq, Repr

/-- A protocol-A chat request (`types.ts`, `OpenAIChatRequest`); optional
JSON fields are `Option`s. -/
structure OpenAIChatRequest where
  model : String
  messages : List OpenAIMessage
  max_tokens : Option Nat
  temperature : Option Rat
  stream : Option Bool
  top_p : Option Rat
  frequency_penalty : Option Rat
  presence_penalty : Option Rat
  stop : Option (Sum String (List String))
deriving DecidableEq

/-- Roles allowed in backend turns (`Anthropic.MessageParam`). -/
inductive TurnRole where
  | user
  | assistant
deriving DecidableEq, Repr

/-- One backend turn (`Anthropic.MessageParam`). -/
structure MessageParam where
  role : TurnRole
  content : String
deriving DecidableEq, Repr

/-- The backend generation request built by the translator
(`Anthropic.MessageCreateParams`, restricted to the fields the source
assigns; note there is no `stream` field). -/
structure MessageCreateParams where
  model : String
  max_tokens : Nat
  messages : List MessageParam
  system : Option String
  temperature : Option Rat
  top_p : Option Rat
  stop_sequences : Option (List String)
deriving DecidableEq

/-- The system-message accumulation of translator.ts line 32:
`systemMessage ? systemMessage + "\n\n" + trimmed : trimmed`, with
JavaScript truthiness of the accumulator string (`""` is falsy). -/
def sysStep (acc t : String) : String :=
  if acc = "" then t else acc ++ "\n\n" ++ t

/-- One step of the `for (const message of messages)` loop of
`openaiToClaudeRequest` (translator.ts lines 28-39): the state is the pair
(systemMessage, claudeMessages).  A system message is folded into the
accumulated system string via `sysStep`; user/assistant messages are
appended as turns with trimmed content. -/
def collectStep (st : String × List MessageParam) (m : OpenAIMessage) :
    String × List MessageParam :=
  match m.role with
  | Role.system => (sysStep st.1 (jsTrim m.content), st.2)
  | Role.user => (st.1, st.2 ++ [⟨TurnRole.user, jsTrim m.content⟩])
  | Role.assistant => (st.1, st.2 ++ [⟨TurnRole.assistant, jsTrim m.content⟩])

/-- The filter of translator.ts lines 42-44: `msg.content` truthy (non-empty
string) and `msg.content.trim().length > 0`. -/
def validTurn (msg : MessageParam) : Bool :=
  decide (msg.content ≠ "") && decide (0 < (jsTrim msg.content).length)

/-- Normalization of `stop` (translator.ts lines 64-66): JavaScript truthiness
(`if (stop)`) makes an empty-string `stop` fall through; a string becomes a
one-element array; an array is kept as is. -/
def mkStopSequences : Option (Sum String (List String)) → Option (List String)
  | none => none
  | some (Sum.inl s) => if s = "" then none else some [s]
  | some (Sum.inr l) => some l

/-- Saturating clamp into [0,1]: `Math.max(0, Math.min(1, x))`
(translator.ts lines 57 and 61). -/
def clamp01 (t : Rat) : Rat :=
  max 0 (min 1 t)

/-- The function `MessageTranslator.openaiToClaudeRequest` (translator.ts lines 12-69). -/
def openaiToClaudeRequest (r : OpenAIChatRequest) : MessageCreateParams :=
  let st := r.messages.foldl collectStep ("", [])
  { model := r.model
    max_tokens := r.max_tokens.getD 4096
    messages := st.2.filter validTurn
    system := if st.1 = "" then none else some st.1
    temperature := r.temperature.map clamp01
    top_p := r.top_p.map clamp01
    stop_sequences := mkStopSequences r.stop }

/-- OpenAI finish reasons appearing in the translator's codomain
(`types.ts`: `"stop" | "length" | "content_filter"`; `null` is modelled by
`Option` at use sites). -/
inductive FinishReason where
  | stop
  | length
  | content_filter
deriving DecidableEq, Repr

/-- The function `MessageTranslator.mapClaudeStopReason` (translator.ts lines 181-194):
the `switch` is a sequence of equality tests with default `"stop"`. -/
def mapClaudeStopReason (claudeStopReason : Option String) : FinishReason :=
  match claudeStopReason with
  | some s =>
      if s = "end_turn" then FinishReason.stop
      else if s = "max_tokens" then FinishReason.length
      else if s = "stop_sequence" then FinishReason.stop
      else FinishReason.stop
  | none => FinishReason.stop

/-- A backend content block (`Anthropic.ContentBlock`): the source only
distinguishes blocks whose `type` is `"text"` from everything else. -/
inductive ContentBlock where
  | text (t : String)
  | other (kind : String)
deriving DecidableEq, Repr

/-- Backend usage counters (`Anthropic.Usage` as read by the source). -/
structure Usage where
  input_tokens : Nat
  output_tokens : Nat
deriving DecidableEq, Repr

/-- A backend unary result (`Anthropic.Message` as read by the source). -/
structure ClaudeMessage where
  id : String
  content : List ContentBlock
  stop_reason : Option String
  usage : Usage
deriving DecidableEq, Repr

/-- Usage block of a protocol-A response (`types.ts`). -/
structure UsageOut where
  prompt_tokens : Nat
  completion_tokens : Nat
  total_tokens : Nat
deriving DecidableEq, Repr

/-- The single choice of a protocol-A unary response (`types.ts`). -/
structure Choice where
  index : Nat
  message_content : String
  finish_reason : Option FinishReason
deriving DecidableEq, Repr

/-- A protocol-A unary response (`types.ts`, `OpenAIChatResponse`); the
choice message role is always `"assistant"` in the source and is left
implicit. -/
structure OpenAIChatResponse where
  id : String
  created : Nat
  model : String
  choices : List Choice
  usage : UsageOut
deriving DecidableEq, Repr

/-- The function `MessageTranslator.claudeToOpenaiResponse` (translator.ts lines 74-109);
`created` stands for `Math.floor(Date.now() / 1000)`. -/
def claudeToOpenaiResponse (claudeResponse : ClaudeMessage)
    (requestModel : String) (created : Nat) : OpenAIChatResponse :=
  let content := jsTrim (String.join (claudeResponse.content.filterMap fun b =>
    match b with
    | ContentBlock.text t => some t
    | ContentBlock.other _ => none))
  { id := claudeResponse.id
    created := created
    model := requestModel
    choices := [⟨0, content, some (mapClaudeStopReason claudeResponse.stop_reason)⟩]
    usage := ⟨claudeResponse.usage.input_tokens,
              claudeResponse.usage.output_tokens,
              claudeResponse.usage.input_tokens + claudeResponse.usage.output_tokens⟩ }

/-- The delta payload of a backend `content_block_delta` event. -/
inductive StreamDeltaPayload where
  | text_delta (text : String)
  | otherDelta (kind : String)
deriving DecidableEq, Repr

/-- Backend stream events (`Anthropic.MessageStreamEvent`, collapsed to the
arms the source's `switch` distinguishes, with an explicit arm for every
other event type). -/
inductive MessageStreamEvent where
  | message_start
  | content_block_delta (delta : StreamDeltaPayload)
  | message_stop
  | otherEvent (kind : String)
deriving DecidableEq, Repr

/-- The delta of a protocol-A stream chunk (`types.ts`: optional `role`,
optional `content`). -/
structure ChunkDelta where
  role : Option String
  content : Option String
deriving DecidableEq, Repr

/-- The single choice of a protocol-A stream chunk (`types.ts`). -/
structure StreamChoice where
  index : Nat
  delta : ChunkDelta
  finish_reason : Option FinishReason
deriving DecidableEq, Repr

/-- A protocol-A stream chunk (`types.ts`, `OpenAIStreamChunk`). -/
structure OpenAIStreamChunk where
  id : String
  created : Nat
  model : String
  choices : List StreamChoice
deriving DecidableEq, Repr

/-- The function `MessageTranslator.claudeStreamToOpenaiChunk` (translator.ts lines
114-175); `created` stands for `Math.floor(Date.now() / 1000)`.  The guard
`event.delta.type === "text_delta" && event.delta.text` requires a text
delta with truthy (non-empty) text. -/
def claudeStreamToOpenaiChunk (event : MessageStreamEvent)
    (requestModel messageId : String) (created : Nat) :
    Option OpenAIStreamChunk :=
  match event with
  | MessageStreamEvent.message_start =>
      some ⟨messageId, created, requestModel,
            [⟨0, ⟨some "assistant", none⟩, none⟩]⟩
  | MessageStreamEvent.content_block_delta d =>
      match d with
      | StreamDeltaPayload.text_delta t =>
          if t = "" then none
          else some ⟨messageId, created, requestModel,
                     [⟨0, ⟨none, some t⟩, none⟩]⟩
      | StreamDeltaPayload.otherDelta _ => none
  | MessageStreamEvent.message_stop =>
      some ⟨messageId, created, requestModel,
            [⟨0, ⟨none, none⟩, some FinishReason.stop⟩]⟩
  | MessageStreamEvent.otherEvent _ => none

/-- One item of the SSE stream written by `handleStreamingResponse`
(server.ts lines 191-223): a serialized chunk, or the final
`data: [DONE]` sentinel. -/
inductive SSEItem where
  | chunk (c : OpenAIStreamChunk)
  | done
deriving DecidableEq, Repr

/-- The sequence of SSE items produced by `handleStreamingResponse`
(server.ts lines 197-217): each event is mapped with
`claudeStreamToOpenaiChunk` using the one `messageId` generated for the
response, `null` chunks are skipped, and the `[DONE]` sentinel is enqueued
after the event sequence is exhausted.  `createdAt i` stands for the
wall-clock second at which event `i` is processed. -/
def handleStreamingItems (events : List MessageStreamEvent)
    (requestModel messageId : String) (createdAt : Nat → Nat) : List SSEItem :=
  (events.enum.filterMap fun p =>
      claudeStreamToOpenaiChunk p.2 requestModel messageId (createdAt p.1)).map SSEItem.chunk
    ++ [SSEItem.done]

/-- The validation errors of `handleChatCompletions` (server.ts lines
60-96), named by the condition they reject: the two 400 responses for a
missing/non-array or empty `messages` field both reject "messages is not a
non-empty array", the third rejects a missing/non-string/empty `model`. -/
inductive ValidationError where
  | messagesMustBeNonEmptyArray
  | modelMustBeNonEmptyString
deriving DecidableEq, Repr

/-- A raw inbound request body before validation: `messages` is `none` when
the field is absent or not an array, `model` is `none` when absent or not a
string (JavaScript falsiness of `""` is checked separately). -/
structure RawChatRequest where
  model : Option String
  messages : Option (List OpenAIMessage)
  max_tokens : Option Nat
  temperature : Option Rat
  stream : Option Bool
  top_p : Option Rat
  frequency_penalty : Option Rat
  presence_penalty : Option Rat
  stop : Option (Sum String (List String))
deriving DecidableEq

/-- The validation sequence of `handleChatCompletions` (server.ts lines
60-105) followed by the translation step: messages checks come first
(`!messages || !Array.isArray(messages)`, then `length === 0`), then the
model check (`!model || typeof model !== "string"`; the empty string is
falsy), and only then is `openaiToClaudeRequest` applied. -/
def validateAndTranslate (r : RawChatRequest) :
    Except ValidationError MessageCreateParams :=
  match r.messages with
  | none => Except.error ValidationError.messagesMustBeNonEmptyArray
  | some msgs =>
      if msgs.length = 0 then
        Except.error ValidationError.messagesMustBeNonEmptyArray
      else
        match r.model with
        | none => Except.error ValidationError.modelMustBeNonEmptyString
        | some m =>
            if m = "" then Except.error ValidationError.modelMustBeNonEmptyString
            else Except.ok (openaiToClaudeRequest
              ⟨m, msgs, r.max_tokens, r.temperature, r.stream, r.top_p,
               r.frequency_penalty, r.presence_penalty, r.stop⟩)

/-- The call path chosen by `handleChatCompletions` (server.ts lines
112-117): `if (openaiRequest.stream)` with JavaScript truthiness. -/
inductive CallMode where
  | unary
  | streaming
deriving DecidableEq, Repr

/-- Dispatch of server.ts lines 112-117. -/
def dispatchMode (stream : Option Bool) : CallMode :=
  if stream.getD false then CallMode.streaming else CallMode.unary

/-- The trimmed contents of the system messages of a request, in encounter
order. -/
def sysTexts (r : OpenAIChatRequest) : List String :=
  r.messages.filterMap fun m =>
    if m.role = Role.system then some (jsTrim m.content) else none

/-- The spec's join: the given strings joined by exactly one blank line
(`"\n\n"`). -/
def joinBlank : List String → String
  | [] => ""
  | [t] => t
  | t :: u :: rest => t ++ "\n\n" ++ joinBlank (u :: rest)

/- Helper lemmas -/

theorem string_ne_empty_of_length {s : String} (h : 0 < s.length) : s ≠ "" := by
  intro he
  subst he
  simp at h

theorem string_length_pos_of_ne_empty {s : String} (h : s ≠ "") : 0 < s.length := by
  obtain ⟨data⟩ := s
  cases data with
  | nil => exact absurd rfl h
  | cons c cs => simp [String.length]

theorem sysStep_ne_empty (acc t : String) (h : acc ≠ "") : sysStep acc t ≠ "" := by
  rw [sysStep, if_neg h]
  apply string_ne_empty_of_length
  rw [String.length_append, String.length_append]
  have := string_length_pos_of_ne_empty h
  omega

theorem joinBlank_cons_append (a t : String) (rest : List String) :
    joinBlank ((a ++ "\n\n" ++ t) :: rest) = a ++ "\n\n" ++ joinBlank (t :: rest) := by
  cases rest with
  | nil => rfl
  | cons u rs =>
      show a ++ "\n\n" ++ t ++ "\n\n" ++ joinBlank (u :: rs) =
        a ++ "\n\n" ++ (t ++ "\n\n" ++ joinBlank (u :: rs))
      simp [String.append_assoc]

theorem joinBlank_cons_ne_empty (t : String) (rest : List String) (h : t ≠ "") :
    joinBlank (t :: rest) ≠ "" := by
  cases rest with
  | nil => exact h
  | cons u rs =>
      apply string_ne_empty_of_length
      show 0 < (t ++ "\n\n" ++ joinBlank (u :: rs)).length
      rw [String.length_append, String.length_append]
      have := string_length_pos_of_ne_empty h
      omega

theorem foldl_sysStep_of_ne (l : List String) (acc : String) (h : acc ≠ "") :
    l.foldl sysStep acc = joinBlank (acc :: l) := by
  induction l generalizing acc with
  | nil => rfl
  | cons t rest ih =>
      rw [List.foldl_cons, ih (sysStep acc t) (sysStep_ne_empty acc t h)]
      rw [show sysStep acc t = acc ++ "\n\n" ++ t from if_neg h]
      exact joinBlank_cons_append acc t rest

theorem foldl_sysStep_empty (l : List String) :
    l.foldl sysStep "" = joinBlank (l.dropWhile fun t => t == "") := by
  induction l with
  | nil => rfl
  | cons t rest ih =>
      by_cases h : t = ""
      · subst h
        rw [List.foldl_cons, show sysStep "" "" = "" from rfl, ih]
        simp [List.dropWhile_cons]
      · rw [List.foldl_cons, show sysStep "" t = t from if_pos rfl,
            foldl_sysStep_of_ne rest t h]
        simp [List.dropWhile_cons, h]

theorem collect_fst (msgs : List OpenAIMessage) (acc : String)
    (lst : List MessageParam) :
    (msgs.foldl collectStep (acc, lst)).1 =
      (msgs.filterMap fun m =>
        if m.role = Role.system then some (jsTrim m.content) else none).foldl
        sysStep acc := by
  induction msgs generalizing acc lst with
  | nil => rfl
  | cons m rest ih =>
      rw [List.foldl_cons, List.filterMap_cons]
      cases hm : m.role with
      | system => simp [collectStep, hm, ih]
      | user => simp [collectStep, hm, ih]
      | assistant => simp [collectStep, hm, ih]

theorem dropWhile_head_ne {l : List String} {t : String} {rest : List String}
    (h : l.dropWhile (fun s => s == "") = t :: rest) : t ≠ "" := by
  induction l with
  | nil => simp [List.dropWhile] at h
  | cons a as ih =>
      rw [List.dropWhile_cons] at h
      by_cases ha : a = ""
      · rw [if_pos (by simp [ha])] at h
        exact ih h
      · rw [if_neg (by simp [ha])] at h
        injection h with h1 h2
        exact h1 ▸ ha

theorem system_field_eq (r : OpenAIChatRequest) :
    (openaiToClaudeRequest r).system =
      (if (sysTexts r).foldl sysStep "" = "" then none
       else some ((sysTexts r).foldl sysStep "")) := by
  show (if (r.messages.foldl collectStep ("", [])).1 = "" then none
        else some (r.messages.foldl collectStep ("", [])).1) = _
  rw [collect_fst r.messages "" []]
  rfl

/- Concrete inputs used by counterexamples and witnesses -/

/-- The four-event stream of the streaming scenario. -/
def c1Events : List MessageStreamEvent :=
  [MessageStreamEvent.message_start,
   MessageStreamEvent.content_block_delta (StreamDeltaPayload.text_delta "Hel"),
   MessageStreamEvent.content_block_delta (StreamDeltaPayload.text_delta "lo"),
   MessageStreamEvent.message_stop]

/-- A request whose first system message trims to empty and whose second is
`"foo"`. -/
def c2req : OpenAIChatRequest :=
  ⟨"m", [⟨Role.system, " "⟩, ⟨Role.system, "foo"⟩, ⟨Role.user, "hi"⟩],
   none, none, none, none, none, none, none⟩

/-- A raw request body with an empty messages array and an empty model. -/
def c3reqBoth : RawChatRequest :=
  ⟨some "", some [], none, none, none, none, none, none, none⟩

/-- A raw request body with an absent messages field. -/
def c3reqA : RawChatRequest :=
  ⟨some "m", none, none, none, none, none, none, none, none⟩

/-- A raw request body with valid messages and an empty model. -/
def c3reqB : RawChatRequest :=
  ⟨some "", some [⟨Role.user, "hi"⟩], none, none, none, none, none, none, none⟩

/-- A fully valid raw request body. -/
def c3reqC : RawChatRequest :=
  ⟨some "m", some [⟨Role.user, "hi"⟩], none, none, none, none, none, none, none⟩

/-- A request with one user message and one blank user message. -/
def c6req : OpenAIChatRequest :=
  ⟨"m", [⟨Role.user, " hi "⟩, ⟨Role.assistant, "  "⟩],
   none, none, none, none, none, none, none⟩

/-- A request whose only system message is blank. -/
def c10req : OpenAIChatRequest :=
  ⟨"m", [⟨Role.system, "  "⟩, ⟨Role.user, "hi"⟩],
   none, none, none, none, none, none, none⟩

/- Claim theorems -/

/-- C1: for the event sequence `[message_start, content_block_delta("Hel"),
content_block_delta("lo"), message_stop]`, mapping each event with
`claudeStreamToOpenaiChunk` under one fixed `messageId` produces exactly 4
chunks in order — a role chunk with `finish_reason = null`, content chunks
`"Hel"` and `"lo"`, and a terminal chunk with empty delta and
`finish_reason = "stop"` — all carrying the same id, with the `[DONE]`
sentinel appended after the sequence is exhausted. -/
theorem streaming_scenario_four_chunks (requestModel messageId : String)
    (createdAt : Nat → Nat) :
    handleStreamingItems c1Events requestModel messageId createdAt =
      [SSEItem.chunk ⟨messageId, createdAt 0, requestModel,
          [⟨0, ⟨some "assistant", none⟩, none⟩]⟩,
       SSEItem.chunk ⟨messageId, createdAt 1, requestModel,
          [⟨0, ⟨none, some "Hel"⟩, none⟩]⟩,
       SSEItem.chunk ⟨messageId, createdAt 2, requestModel,
          [⟨0, ⟨none, some "lo"⟩, none⟩]⟩,
       SSEItem.chunk ⟨messageId, createdAt 3, requestModel,
          [⟨0, ⟨none, none⟩, some FinishReason.stop⟩]⟩,
       SSEItem.done] := by
  rfl

/-- C2 counterexample: for the request whose system messages are `" "` and
`"foo"`, the claim predicts the system field `"\n\nfoo"` (the trimmed
contents of all system messages joined by one blank line), but the code
produces `"foo"`: the leading blank system message is dropped, not
joined. -/
theorem system_join_counterexample :
    (openaiToClaudeRequest c2req).system = some "foo" ∧
    joinBlank (sysTexts c2req) = "\n\nfoo" ∧
    ("foo" : String) ≠ "\n\nfoo" := by
  refine ⟨rfl, rfl, by decide⟩

/-- C2 (amended): for every request in which at least one system message has
non-empty trimmed content, the system field equals the trimmed contents of
the system messages, in encounter order, joined by exactly one blank line,
after dropping the leading system messages whose content trims to empty. -/
theorem system_join_drops_leading_blanks (r : OpenAIChatRequest)
    (h : (sysTexts r).dropWhile (fun t => t == "") ≠ []) :
    (openaiToClaudeRequest r).system =
      some (joinBlank ((sysTexts r).dropWhile fun t => t == "")) := by
  rw [system_field_eq r, foldl_sysStep_empty (sysTexts r)]
  obtain ⟨t, rest, hd⟩ : ∃ t rest,
      (sysTexts r).dropWhile (fun t => t == "") = t :: rest := by
    cases hc : (sysTexts r).dropWhile (fun t => t == "") with
    | nil => exact absurd hc h
    | cons t rest => exact ⟨t, rest, rfl⟩
  have ht : t ≠ "" := dropWhile_head_ne hd
  rw [hd]
  exact if_neg (joinBlank_cons_ne_empty t rest ht)

/-- C2 witness: the amended statement applied to the concrete request with
system messages `" "` and `"foo"`. -/
theorem system_join_drops_leading_blanks_witness :
    (openaiToClaudeRequest c2req).system =
      some (joinBlank ((sysTexts c2req).dropWhile fun t => t == "")) :=
  system_join_drops_leading_blanks c2req (by decide)

/-- C3 counterexample: on a raw request whose messages array is empty AND
whose model is the empty string, the code reports the messages error, not
the model error; so the claim's "fails with the model error whenever the
model field is missing or empty" is false as stated. -/
theorem validation_counterexample :
    c3reqBoth.model = some "" ∧
    validateAndTranslate c3reqBoth =
      Except.error ValidationError.messagesMustBeNonEmptyArray ∧
    ValidationError.messagesMustBeNonEmptyArray ≠
      ValidationError.modelMustBeNonEmptyString := by
  refine ⟨rfl, rfl, by decide⟩

/-- C3 (amended): validation fails with the messages error whenever the
messages field is absent/not-list-shaped or empty; it fails with the model
error whenever the messages are a non-empty list and the model is missing
or empty (the messages check takes precedence); for all other inputs it
returns a `GenerationRequest`. -/
theorem validation_rules (r : RawChatRequest) :
    ((r.messages = none ∨ r.messages = some []) →
      validateAndTranslate r =
        Except.error ValidationError.messagesMustBeNonEmptyArray) ∧
    (∀ msgs, r.messages = some msgs → msgs ≠ [] →
      (r.model = none ∨ r.model = some "") →
      validateAndTranslate r =
        Except.error ValidationError.modelMustBeNonEmptyString) ∧
    (∀ msgs m, r.messages = some msgs → msgs ≠ [] → r.model = some m →
      m ≠ "" → ∃ g, validateAndTranslate r = Except.ok g) := by
  refine ⟨?_, ?_, ?_⟩
  · rintro (hm | hm) <;> simp [validateAndTranslate, hm]
  · rintro msgs hm hne (hmo | hmo) <;>
      simp [validateAndTranslate, hm, hmo, List.length_eq_zero, hne]
  · intro msgs m hm hne hmo hms
    refine ⟨openaiToClaudeRequest
      ⟨m, msgs, r.max_tokens, r.temperature, r.stream, r.top_p,
       r.frequency_penalty, r.presence_penalty, r.stop⟩, ?_⟩
    simp [validateAndTranslate, hm, hmo, List.length_eq_zero, hne, hms]

/-- C3 witness: the amended rules applied to three concrete raw requests —
absent messages, valid messages with empty model, and a fully valid one. -/
theorem validation_rules_witness :
    validateAndTranslate c3reqA =
      Except.error ValidationError.messagesMustBeNonEmptyArray ∧
    validateAndTranslate c3reqB =
      Except.error ValidationError.modelMustBeNonEmptyString ∧
    ∃ g, validateAndTranslate c3reqC = Except.ok g :=
  ⟨(validation_rules c3reqA).1 (Or.inl rfl),
   (validation_rules c3reqB).2.1 [⟨Role.user, "hi"⟩] rfl (by decide) (Or.inr rfl),
   (validation_rules c3reqC).2.2 [⟨Role.user, "hi"⟩] "m" rfl (by decide) rfl
     (by decide)⟩

/-- C4: `mapClaudeStopReason` is a total deterministic function returning
`"length"` exactly on `"max_tokens"` and `"stop"` on every other input,
including `null` and unrecognized strings; in particular `end_turn ↦ stop`,
`max_tokens ↦ length`, `stop_sequence ↦ stop`. -/
theorem mapClaudeStopReason_total (x : Option String) :
    mapClaudeStopReason x =
      (if x = some "max_tokens" then FinishReason.length
       else FinishReason.stop) ∧
    mapClaudeStopReason (some "end_turn") = FinishReason.stop ∧
    mapClaudeStopReason (some "max_tokens") = FinishReason.length ∧
    mapClaudeStopReason (some "stop_sequence") = FinishReason.stop ∧
    mapClaudeStopReason none = FinishReason.stop ∧
    mapClaudeStopReason (some "unknown_future_value") = FinishReason.stop := by
  refine ⟨?_, rfl, rfl, rfl, rfl, rfl⟩
  cases x with
  | none => simp [mapClaudeStopReason]
  | some s =>
      by_cases h1 : s = "end_turn" <;> by_cases h2 : s = "max_tokens" <;>
        by_cases h3 : s = "stop_sequence" <;>
          simp_all [mapClaudeStopReason]

/-- C5: `claudeToOpenaiResponse` copies `input_tokens` to `prompt_tokens`
and `output_tokens` to `completion_tokens`, and computes `total_tokens` as
their arithmetic sum; in particular 10 and 5 always give 15. -/
theorem usage_total_is_sum (m : ClaudeMessage) (requestModel : String)
    (created : Nat) :
    (claudeToOpenaiResponse m requestModel created).usage.prompt_tokens =
      m.usage.input_tokens ∧
    (claudeToOpenaiResponse m requestModel created).usage.completion_tokens =
      m.usage.output_tokens ∧
    (claudeToOpenaiResponse m requestModel created).usage.total_tokens =
      m.usage.input_tokens + m.usage.output_tokens ∧
    (claudeToOpenaiResponse ⟨"id", [], none, ⟨10, 5⟩⟩ requestModel
        created).usage.total_tokens = 15 := by
  exact ⟨rfl, rfl, rfl, rfl⟩

/-- C6: every turn of the translated request has non-empty content and
non-empty trimmed content; user/assistant messages whose content trims to
empty never appear in the output turn sequence. -/
theorem turns_have_nonempty_trimmed_content (r : OpenAIChatRequest)
    (t : MessageParam) (h : t ∈ (openaiToClaudeRequest r).messages) :
    t.content ≠ "" ∧ jsTrim t.content ≠ "" := by
  have h2 : validTurn t = true := by
    have he : (openaiToClaudeRequest r).messages =
        (r.messages.foldl collectStep ("", [])).2.filter validTurn := rfl
    rw [he] at h
    exact (List.mem_filter.mp h).2
  rw [validTurn, Bool.and_eq_true, decide_eq_true_eq, decide_eq_true_eq] at h2
  exact ⟨h2.1, string_ne_empty_of_length h2.2⟩

/-- C6 witness: the property at the concrete request with turns
`" hi "` and `"  "` — the surviving turn `"hi"` has non-empty trimmed
content. -/
theorem turns_have_nonempty_trimmed_content_witness :
    (⟨TurnRole.user, "hi"⟩ : MessageParam) ∈ (openaiToClaudeRequest c6req).messages ∧
    ("hi" : String) ≠ "" ∧ jsTrim "hi" ≠ "" := by
  refine ⟨by decide, turns_have_nonempty_trimmed_content c6req ⟨TurnRole.user, "hi"⟩ (by decide)⟩

/-- C7: when `temperature` (respectively `top_p`) is present it is assigned
its saturating clamp into [0,1] (and no field is produced when absent,
since `Option.map` preserves `none`); the clamp sends 1.5 to 1, -0.2 to 0,
leaves 0.4 unchanged, and always lands in [0,1]. -/
theorem temperature_top_p_clamped (r : OpenAIChatRequest) :
    (openaiToClaudeRequest r).temperature = r.temperature.map clamp01 ∧
    (openaiToClaudeRequest r).top_p = r.top_p.map clamp01 ∧
    clamp01 (3/2) = 1 ∧ clamp01 (-(1/5)) = 0 ∧ clamp01 (2/5) = 2/5 ∧
    (∀ t : Rat, 0 ≤ clamp01 t ∧ clamp01 t ≤ 1) := by
  refine ⟨rfl, rfl, by norm_num [clamp01], by norm_num [clamp01],
    by norm_num [clamp01], fun t => ⟨le_max_left 0 _, ?_⟩⟩
  exact max_le (by norm_num) (min_le_left 1 t)

/-- C8: the streaming flag is never copied into the backend request — the
translation is invariant under the `stream` field — and only selects the
unary or streaming call path at the boundary. -/
theorem stream_flag_not_copied (r : OpenAIChatRequest) (b : Option Bool) :
    openaiToClaudeRequest { r with stream := b } = openaiToClaudeRequest r ∧
    dispatchMode (some true) = CallMode.streaming ∧
    dispatchMode (some false) = CallMode.unary ∧
    dispatchMode none = CallMode.unary := by
  refine ⟨?_, rfl, rfl, rfl⟩
  cases r
  rfl

/-- C9: the per-event chunk mapping keeps no cross-event state — equal
events at equal positions yield equal chunks (for the same model,
messageId and wall-clock value) — and a non-empty text delta occurring
before any `message_start` still produces a content chunk. -/
theorem chunk_mapping_stateless (es1 es2 : List MessageStreamEvent) (i : Nat)
    (requestModel messageId : String) (c : Nat) (t : String)
    (h : es1.get? i = es2.get? i) (ht : t ≠ "") :
    (es1.get? i).bind
        (fun e => claudeStreamToOpenaiChunk e requestModel messageId c) =
      (es2.get? i).bind
        (fun e => claudeStreamToOpenaiChunk e requestModel messageId c) ∧
    claudeStreamToOpenaiChunk
        (MessageStreamEvent.content_block_delta (StreamDeltaPayload.text_delta t))
        requestModel messageId c =
      some ⟨messageId, c, requestModel, [⟨0, ⟨none, some t⟩, none⟩]⟩ ∧
    handleStreamingItems
        [MessageStreamEvent.content_block_delta (StreamDeltaPayload.text_delta t)]
        requestModel messageId (fun _ => c) =
      [SSEItem.chunk ⟨messageId, c, requestModel, [⟨0, ⟨none, some t⟩, none⟩]⟩,
       SSEItem.done] := by
  refine ⟨by rw [h], ?_, ?_⟩
  · simp [claudeStreamToOpenaiChunk, ht]
  · simp [handleStreamingItems, claudeStreamToOpenaiChunk, ht, List.enum]

/-- C9 witness: the statelessness statement at two concrete equal
single-event sequences and the concrete delta text `"x"`. -/
theorem chunk_mapping_stateless_witness :
    (([MessageStreamEvent.message_stop] : List MessageStreamEvent).get? 0).bind
        (fun e => claudeStreamToOpenaiChunk e "m" "id" 7) =
      (([MessageStreamEvent.message_stop] : List MessageStreamEvent).get? 0).bind
        (fun e => claudeStreamToOpenaiChunk e "m" "id" 7) ∧
    claudeStreamToOpenaiChunk
        (MessageStreamEvent.content_block_delta (StreamDeltaPayload.text_delta "x"))
        "m" "id" 7 =
      some ⟨"id", 7, "m", [⟨0, ⟨none, some "x"⟩, none⟩]⟩ ∧
    handleStreamingItems
        [MessageStreamEvent.content_block_delta (StreamDeltaPayload.text_delta "x")]
        "m" "id" (fun _ => 7) =
      [SSEItem.chunk ⟨"id", 7, "m", [⟨0, ⟨none, some "x"⟩, none⟩]⟩,
       SSEItem.done] :=
  chunk_mapping_stateless [MessageStreamEvent.message_stop]
    [MessageStreamEvent.message_stop] 0 "m" "id" 7 "x" rfl (by decide)

/-- C10: when the request has no system messages, or every system message's
content trims to empty, the translated request omits the `system` field
entirely rather than setting it to the empty string. -/
theorem system_omitted_when_blank (r : OpenAIChatRequest)
    (h : ∀ t ∈ sysTexts r, t = "") :
    (openaiToClaudeRequest r).system = none := by
  rw [system_field_eq r, foldl_sysStep_empty (sysTexts r)]
  have hd : (sysTexts r).dropWhile (fun t => t == "") = [] := by
    rw [List.dropWhile_eq_nil_iff]
    intro x hx
    simp [h x hx]
  rw [hd]
  rfl

/-- C10 witness: the omission at the concrete request whose only system
message is blank. -/
theorem system_omitted_when_blank_witness :
    (openaiToClaudeRequest c10req).system = none :=
  system_omitted_when_blank c10req (by decide)

end BraveByom
